import Mathlib

/-!
Shallow embedding of `corpman.py` (grizzly corpus manager) and verification of
the frozen claims about it.

Modelling conventions:
* Python byte strings are `List Nat` (each entry one byte value).
* Python `None`-able values are `Option`.
* Raised exceptions are modelled with `Except PyError` for functions whose
  callers observe only the result, and with `A × Option PyError` for methods
  that mutate object state before possibly raising (the mutations performed
  before the raise persist on the Python object, so they must survive in the
  model).
* The filesystem is an explicit `FS` value passed to the operations that
  consult it.  `os.walk` is modelled by the list `FS.entries` of
  (directory, filename) pairs in walk order; `os.path.abspath (os.path.join d f)`
  is modelled by `joinPath d f` (directories are taken to be absolute already).
* `hashlib.sha1(...).hexdigest()` is an external deterministic function of the
  bytes; it is passed as an explicit parameter `sha1 : List Nat → String`.
* `random.choice(lst)` picks `lst[i]` for a random index `i`; the index is
  supplied as an explicit parameter `r` and reduced modulo the length.
-/

namespace Corpman

/-- Python byte strings. -/
abbrev Bytes := List Nat

/-- Exceptions raised by the code under study.  `ioError` models `IOError`
(the spec names these `NotFoundError` / `EmptyCorpusError` depending on the
raise site), `indexError` models `IndexError` from `list.pop()` /
`random.choice` on an empty list (the spec's `ExhaustedReplayError`), and
`typeError` models `TypeError`. -/
inductive PyError where
  | ioError (msg : String)
  | indexError
  | typeError (msg : String)
  deriving Repr, DecidableEq

/-- Python str.lower() (ASCII, which is all the code compares). -/
def pyLower (s : String) : String := String.mk (s.toList.map Char.toLower)

/-- Python name.startswith with a dot: the first character is a dot. -/
def startsWithDot (s : String) : Bool :=
  match s.toList with
  | [] => false
  | c :: _ => c == '.'

/-- Python os.path.splitext(name)[1].lstrip of the dot: the part of `name` after the last
dot, where leading dots of the name do not start an extension (Python
`splitext` semantics), and the result has its leading dot stripped. -/
def extAfterDot (name : String) : String :=
  let rest := name.toList.dropWhile (fun c => c == '.')
  if rest.contains '.' then
    String.mk ((rest.reverse.takeWhile (fun c => !(c == '.'))).reverse)
  else ""

/-- Format "%04d" % n: decimal digits of `n`, left padded with zeros to width 4. -/
def pad4 (n : Nat) : String :=
  let s := toString n
  String.mk (List.replicate (4 - s.length) '0') ++ s

/-- Format "test_page_%04d.html" % n. -/
def landingName (n : Nat) : String := "test_page_" ++ pad4 n ++ ".html"

/-- Format "transition_%04d.html" % n. -/
def transitionName (n : Nat) : String := "transition_" ++ pad4 n ++ ".html"

/-- A single-quote character, built by code point to keep it out of string
literals. -/
def singleQuote : String := String.mk [Char.ofNat 39]

/-- The transition-page script, "<script>window.location=(next landing page);</script>". -/
def transitionScript (n : Nat) : String :=
  "<script>window.location=" ++ singleQuote ++ landingName n ++ singleQuote ++ ";</script>"

/-- Source class Template (the spec's ContentRef): fields `_data` and `_data_hash` are
the lazy caches, `None` until the first load. -/
structure Template where
  file_name : String
  extension : Option String
  dataF : Option Bytes
  dataHashF : Option String
  deriving Repr, DecidableEq

/-- The `Template` produced by a successful construction from path `s`. -/
def mkT (s : String) : Template :=
  { file_name := s
    extension := if s.toList.contains '.' then some (extAfterDot s) else none
    dataF := none
    dataHashF := none }

/-- Source Template.__init__(file_name).  Raises
`IOError("File does not exist: %s" % file_name)` when `file_name is None`;
otherwise sets `extension` when the name contains a dot.  No disk access
happens here (the function does not even receive the disk). -/
def Template.init (file_name : Option String) : Except PyError Template :=
  match file_name with
  | none => .error (.ioError "File does not exist: None")
  | some fn => .ok (mkT fn)

/-- Source Template._load_and_hash_data: raises `IOError` when the path is not a
file on disk; otherwise reads the bytes and caches data and SHA1 digest. -/
def load_and_hash_data (disk : String → Option Bytes) (sha1 : Bytes → String)
    (t : Template) : Except PyError Template :=
  match disk t.file_name with
  | none => .error (.ioError ("File does not exist: " ++ t.file_name))
  | some d => .ok { t with dataF := some d, dataHashF := some (sha1 d) }

/-- Source Template.get_data: loads on first use (`_data is None`), returns the
cached bytes together with the (possibly updated) object. -/
def get_data (disk : String → Option Bytes) (sha1 : Bytes → String)
    (t : Template) : Except PyError (Bytes × Template) :=
  match t.dataF with
  | some d => .ok (d, t)
  | none =>
    match load_and_hash_data disk sha1 t with
    | .error e => .error e
    | .ok t2 => .ok (t2.dataF.getD [], t2)

/-- Source Template.get_hash: loads on first use (`_data_hash is None`), returns the
cached digest together with the (possibly updated) object. -/
def get_hash (disk : String → Option Bytes) (sha1 : Bytes → String)
    (t : Template) : Except PyError (String × Template) :=
  match t.dataHashF with
  | some h => .ok (h, t)
  | none =>
    match load_and_hash_data disk sha1 t with
    | .error e => .error e
    | .ok t2 => .ok (t2.dataHashF.getD "", t2)

/-- One observable operation on a `Template`. -/
inductive TOp where
  | getData
  | getHash
  deriving Repr, DecidableEq

/-- Instrumented step: runs one operation on a template, counting disk reads.
A read (the `open(...).read()` in `_load_and_hash_data`) happens exactly when
the operation found its cache field empty and the load then succeeded, which
is exactly the successful-result case with an empty cache on entry.  A failed
load (`os.path.isfile` false) raises before opening the file, so it reads
nothing and leaves the object unchanged. -/
def opStep (disk : String → Option Bytes) (sha1 : Bytes → String)
    (p : Template × Nat) (op : TOp) : Template × Nat :=
  match op with
  | .getData =>
    match get_data disk sha1 p.1 with
    | .error _ => p
    | .ok q => (q.2, p.2 + (if p.1.dataF.isNone then 1 else 0))
  | .getHash =>
    match get_hash disk sha1 p.1 with
    | .error _ => p
    | .ok q => (q.2, p.2 + (if p.1.dataHashF.isNone then 1 else 0))

/-- Run a sequence of operations, threading the object and the read count. -/
def runOps (disk : String → Option Bytes) (sha1 : Bytes → String)
    (ops : List TOp) (p : Template × Nat) : Template × Nat :=
  ops.foldl (opStep disk sha1) p

/-- Source class TestFile (the spec's OutputFile). -/
structure TestFile where
  file_name : String
  data : String
  required : Bool := true
  deriving Repr, DecidableEq

/-- Source class TestCase: `test_files` is the source's `_test_files`, `optional_files`
the source's `_optional_files`. -/
structure TestCase where
  corpman_name : Option String
  landing_page : String
  template : Option Template
  test_files : List TestFile
  optional_files : List String
  deriving Repr, DecidableEq

/-- Source TestCase.__init__(landing_page, corpman_name, template). -/
def TestCase.init (landing_page : String) (corpman_name : Option String)
    (template : Option Template) : TestCase :=
  { corpman_name := corpman_name
    landing_page := landing_page
    template := template
    test_files := []
    optional_files := [] }

/-- A dynamically-typed Python value as passed to `add_testfile`: either an
actual `TestFile` or some other object. -/
inductive PyObj where
  | testFile (tf : TestFile)
  | other (descr : String)
  deriving Repr, DecidableEq

/-- The body of `add_testfile` once the `isinstance` check has passed: append
to `_test_files`, and record the name in `_optional_files` when not required. -/
def addTF (tc : TestCase) (tf : TestFile) : TestCase :=
  { tc with
    test_files := tc.test_files ++ [tf]
    optional_files :=
      if tf.required then tc.optional_files else tc.optional_files ++ [tf.file_name] }

/-- Source TestCase.add_testfile: a TypeError unless the argument is a `TestFile`. -/
def add_testfile (tc : TestCase) (obj : PyObj) : Except PyError TestCase :=
  match obj with
  | .testFile tf => .ok (addTF tc tf)
  | .other _ => .error (.typeError "add_testfile() only accepts TestFile objects")

/-- Source TestCase.get_optional: the list when non-empty, Python `None` otherwise. -/
def get_optional (tc : TestCase) : Option (List String) :=
  if tc.optional_files.isEmpty then none else some tc.optional_files

/-- The base64 alphabet, indexed 0..63. -/
def b64Char (n : Nat) : Char :=
  "ABCDEFGHIJKLMNOPQRSTUVWXYZabcdefghijklmnopqrstuvwxyz0123456789+/".toList.getD n '?'

/-- Standard base64 of a byte string, three bytes at a time with `=` padding
(`base64.standard_b64encode`). -/
def b64Chunks : Bytes → List Char
  | [] => []
  | [b1] => [b64Char (b1 / 4), b64Char (b1 % 4 * 16), '=', '=']
  | [b1, b2] => [b64Char (b1 / 4), b64Char (b1 % 4 * 16 + b2 / 16), b64Char (b2 % 16 * 4), '=']
  | b1 :: b2 :: b3 :: rest =>
    b64Char (b1 / 4) :: b64Char (b1 % 4 * 16 + b2 / 16) ::
      b64Char (b2 % 16 * 4 + b3 / 64) :: b64Char (b3 % 64) :: b64Chunks rest

/-- Source base64.standard_b64encode as a string. -/
def standard_b64encode (d : Bytes) : String := String.mk (b64Chunks d)

/-- Source CorpusManager.to_data_url(data, mime_type): the literal string
`"data:%s;base64,%s" % (mime_type, standard_b64encode(data))` with the default
MIME type substituted when `mime_type is None`. -/
def to_data_url (data : Bytes) (mime_type : Option String) : String :=
  let m := match mime_type with
    | none => "application/octet-stream"
    | some s => s
  "data:" ++ m ++ ";base64," ++ standard_b64encode data

/-- The filesystem as seen by the scan routine, relative to one corpus path:
whether that path is a directory, the `(d_name, f_name)` pairs produced by
`os.walk` over it (in walk order), whether the path is a regular file, and
`os.path.getsize`. -/
structure FS where
  isDir : Bool
  entries : List (String × String)
  isFileRoot : Bool
  getsize : String → Nat

/-- Python os.path.abspath(os.path.join(d_name, f_name)) (directories are taken to
be absolute already). -/
def joinPath (d f : String) : String := d ++ "/" ++ f

/-- The fixed denylist of OS-generated filenames (`ignored_list`). -/
def ignored_list : List String := ["desktop.ini", "thumbs.db"]

/-- Python truthiness of the `accepted_extensions` argument: `None` and the
empty list are falsy. -/
def acceptedTruthy : Option (List String) → Bool
  | none => false
  | some l => !l.isEmpty

/-- The candidate list built by `_scan_for_templates` before the emptiness
check and the replay sort: walk the tree when the corpus path is a directory,
skipping hidden files, denylisted names, extension-filtered names (only when
the filter is truthy) and empty files; otherwise the corpus path itself when
it is a non-empty regular file. -/
def scanList (fs : FS) (path : String) (accepted : Option (List String)) : List String :=
  if fs.isDir then
    fs.entries.filterMap (fun e =>
      if startsWithDot e.2 || ignored_list.contains (pyLower e.2) then none
      else if acceptedTruthy accepted
              && !((accepted.getD []).contains (pyLower (extAfterDot e.2))) then none
      else if 0 < fs.getsize (joinPath e.1 e.2) then some (joinPath e.1 e.2) else none)
  else if fs.isFileRoot = true ∧ 0 < fs.getsize path then [path] else []

/-- Python list.sort(reverse=True) on paths: descending lexicographic order. -/
def sortDesc (l : List String) : List String :=
  List.insertionSort (fun a b => b ≤ a) l

/-- Ascending lexicographic sort, used to state the replay-order claims. -/
def sortAsc (l : List String) : List String :=
  List.insertionSort (fun a b => a ≤ b) l

/-- Source class CorpusManager, instance state.  `key` is the class attribute overloaded
by subclasses.  The `accepted_extensions` constructor argument is *not* a
field: the source only passes it to the initial scan. -/
structure CorpusManager where
  active_template : Option Template
  corpus_path : String
  generated : Nat
  is_replay : Bool
  rotate_period : Nat
  templates : List String
  use_transition : Bool
  key : Option String
  deriving Repr, DecidableEq

/-- Source CorpusManager._scan_for_templates(accepted_extensions): rebuilds
`_templates` from scratch, raises `IOError` when nothing was found (the
assignment of the empty list persists on the object), and sorts descending in
replay mode.  Returns the updated object and the raised exception if any. -/
def scan_for_templates (fs : FS) (cm : CorpusManager)
    (accepted : Option (List String)) : CorpusManager × Option PyError :=
  if (scanList fs cm.corpus_path accepted).isEmpty then
    ({ cm with templates := [] },
      some (.ioError ("Could not find test case(s) at " ++ cm.corpus_path)))
  else
    ({ cm with templates :=
        if cm.is_replay then sortDesc (scanList fs cm.corpus_path accepted)
        else scanList fs cm.corpus_path accepted }, none)

/-- Source CorpusManager.__init__(path, accepted_extensions, aggression, is_replay,
rotate): field setup (`_rotate_period` is `0` when `is_replay`, else
`rotate`), the no-op base `_init_fuzzer`, then the initial scan with the given
extension filter.  The `aggression` argument only feeds `_init_fuzzer`
(a no-op in the base class) and is omitted. -/
def CorpusManager.init (fs : FS) (path : String) (accepted : Option (List String))
    (is_replay : Bool) (rotate : Nat) (key : Option String) :
    CorpusManager × Option PyError :=
  let cm : CorpusManager :=
    { active_template := none
      corpus_path := path
      generated := 0
      is_replay := is_replay
      rotate_period := if is_replay then 0 else rotate
      templates := []
      use_transition := true
      key := key }
  scan_for_templates fs cm accepted

/-- The first phase of `generate()`: when rotation is enabled and the counter
is a multiple of the period, rescan (passing *no* extension filter) and clear
the active template when the rescanned pool has more than one entry. -/
def rotationPhase (fs : FS) (cm : CorpusManager) : CorpusManager × Option PyError :=
  if 0 < cm.rotate_period ∧ cm.generated % cm.rotate_period = 0 then
    match scan_for_templates fs cm none with
    | (cm1, some e) => (cm1, some e)
    | (cm1, none) =>
      if 1 < cm1.templates.length then ({ cm1 with active_template := none }, none)
      else (cm1, none)
  else (cm, none)

/-- The template-selection phase of `generate()`: in replay mode pop the tail
of `_templates` (raising `IndexError` when empty) and make it active; in fresh
mode pick `random.choice(_templates)` only when no template is active. -/
def selectPhase (r : Nat) (cm : CorpusManager) : CorpusManager × Option PyError :=
  if cm.is_replay then
    match cm.templates.getLast? with
    | none => (cm, some .indexError)
    | some last =>
      match Template.init (some last) with
      | .error e => ({ cm with templates := cm.templates.dropLast }, some e)
      | .ok t =>
        ({ cm with templates := cm.templates.dropLast, active_template := some t }, none)
  else
    match cm.active_template with
    | some _ => (cm, none)
    | none =>
      if cm.templates.isEmpty then (cm, some .indexError)
      else
        match Template.init (some (cm.templates.getD (r % cm.templates.length) "")) with
        | .error e => (cm, some e)
        | .ok t => ({ cm with active_template := some t }, none)

/-- The test-case shell built by `generate()` after selection: the `TestCase`
with the landing page for the current counter, plus — when the transition page
is enabled — the required redirect `TestFile` whose script navigates to the
next landing page.  Returns the shell and the `redirect_page` name passed on
to the generation hook. -/
def buildShell (cm : CorpusManager) : TestCase × String :=
  let test := TestCase.init (landingName cm.generated) cm.key cm.active_template
  if cm.use_transition then
    let rp := transitionName cm.generated
    let rd : TestFile :=
      { file_name := rp, data := transitionScript (cm.generated + 1), required := true }
    (addTF test rd, rp)
  else
    (test, landingName (cm.generated + 1))

/-- A generation hook (`_generate`, subclass-supplied): reads the shell and
returns the list of `TestFile`s it adds via `add_testfile`, or raises. -/
abbrev Hook := TestCase → String → Option String → Except PyError (List TestFile)

/-- Source CorpusManager.generate(mime_type): rotation phase, selection phase,
shell construction, the generation hook, and — only after the hook returned —
the counter increment.  State mutated before a raise persists. -/
def generate (fs : FS) (hook : Hook) (r : Nat) (mime_type : Option String)
    (cm : CorpusManager) : CorpusManager × Except PyError TestCase :=
  match rotationPhase fs cm with
  | (cm1, some e) => (cm1, .error e)
  | (cm1, none) =>
    match selectPhase r cm1 with
    | (cm2, some e) => (cm2, .error e)
    | (cm2, none) =>
      let shell := buildShell cm2
      match hook shell.1 shell.2 mime_type with
      | .error e => (cm2, .error e)
      | .ok added =>
        ({ cm2 with generated := cm2.generated + 1 }, .ok (added.foldl addTF shell.1))

/-- A generation hook that adds no files and never raises. -/
def plainHook : Hook := fun _ _ _ => .ok []

/-- Iterate `generate` a number of times, stopping at the first raise. -/
def genIter (fs : FS) (hook : Hook) (r : Nat) (mime_type : Option String) :
    Nat → CorpusManager → CorpusManager × Option PyError
  | 0, cm => (cm, none)
  | k + 1, cm =>
    match generate fs hook r mime_type cm with
    | (cm1, .ok _) => genIter fs hook r mime_type k cm1
    | (cm1, .error e) => (cm1, some e)

/-- Concrete two-template directory used to exercise the model. -/
def fsA : FS :=
  { isDir := true
    entries := [("/c", "b.html"), ("/c", "a.html")]
    isFileRoot := false
    getsize := fun _ => 7 }

/-- Concrete directory holding one `.html` and one `.txt` file. -/
def fsB : FS :=
  { isDir := true
    entries := [("/c", "a.html"), ("/c", "b.txt")]
    isFileRoot := false
    getsize := fun _ => 7 }

/-- A fresh-mode manager state with one template and rotation disabled. -/
def cmPlain : CorpusManager :=
  { active_template := none
    corpus_path := "/c"
    generated := 0
    is_replay := false
    rotate_period := 0
    templates := ["/c/a.html"]
    use_transition := true
    key := some "corp" }

/-- A replay-mode manager whose pool is already exhausted. -/
def cmNoPool : CorpusManager :=
  { active_template := none
    corpus_path := "/c"
    generated := 5
    is_replay := true
    rotate_period := 0
    templates := []
    use_transition := true
    key := none }

/-- A fresh-mode manager between rotation boundaries (counter not a multiple
of the period). -/
def cmRot : CorpusManager :=
  { active_template := none
    corpus_path := "/c"
    generated := 1
    is_replay := false
    rotate_period := 2
    templates := ["/c/a.html"]
    use_transition := true
    key := some "corp" }

/-- Concrete one-file disk used to exercise the lazy-load model. -/
def diskA : String → Option Bytes :=
  fun n => if n = "/c/a.html" then some [104, 105] else none

/-- A concrete stand-in digest function (any deterministic function works). -/
def shaA : Bytes → String := fun d => toString d.length

/-- Extract the success value of an `Except`, with a default. -/
def exceptGetD {ε α : Type} (e : Except ε α) (dflt : α) : α :=
  match e with
  | .ok a => a
  | .error _ => dflt

/-- Cache invariant of a `Template` threaded with its disk-read count: either
nothing is cached yet and nothing was read, or both caches are filled
consistently and at most one read happened. -/
def cacheInv (sha1 : Bytes → String) (p : Template × Nat) : Prop :=
  (p.1.dataF = none ∧ p.1.dataHashF = none ∧ p.2 = 0) ∨
  ((∃ d, p.1.dataF = some d ∧ p.1.dataHashF = some (sha1 d)) ∧ p.2 ≤ 1)

instance : IsTotal String (fun a b => b ≤ a) := ⟨fun a b => le_total b a⟩

instance : IsTrans String (fun a b => b ≤ a) :=
  ⟨fun _ _ _ h1 h2 => le_trans h2 h1⟩

instance : IsAntisymm String (fun a b => b ≤ a) :=
  ⟨fun _ _ h1 h2 => le_antisymm h2 h1⟩

instance : IsTotal String (fun a b => a ≤ b) := ⟨le_total⟩

instance : IsTrans String (fun a b => a ≤ b) := ⟨fun _ _ _ => le_trans⟩

/-- The fields of `CorpusManager` that no method other than `generate`'s
counter increment ever writes. -/
def FrozenFields (a b : CorpusManager) : Prop :=
  a.corpus_path = b.corpus_path ∧ a.generated = b.generated ∧
    a.is_replay = b.is_replay ∧ a.rotate_period = b.rotate_period ∧
    a.use_transition = b.use_transition ∧ a.key = b.key

theorem frozenFields_refl (a : CorpusManager) : FrozenFields a a :=
  ⟨rfl, rfl, rfl, rfl, rfl, rfl⟩

theorem frozenFields_trans {a b c : CorpusManager}
    (h1 : FrozenFields a b) (h2 : FrozenFields b c) : FrozenFields a c := by
  obtain ⟨p1, g1, r1, o1, u1, k1⟩ := h1
  obtain ⟨p2, g2, r2, o2, u2, k2⟩ := h2
  exact ⟨p1.trans p2, g1.trans g2, r1.trans r2, o1.trans o2, u1.trans u2, k1.trans k2⟩

theorem scan_frozen (fs : FS) (cm : CorpusManager) (acc : Option (List String)) :
    FrozenFields (scan_for_templates fs cm acc).1 cm := by
  unfold scan_for_templates
  split <;> exact ⟨rfl, rfl, rfl, rfl, rfl, rfl⟩

theorem rotationPhase_frozen (fs : FS) (cm : CorpusManager) :
    FrozenFields (rotationPhase fs cm).1 cm := by
  unfold rotationPhase
  split
  · split
    · next heq =>
      have := scan_frozen fs cm none
      rw [heq] at this
      exact this
    · next cm1 heq =>
      have := scan_frozen fs cm none
      rw [heq] at this
      split
      · exact this
      · exact this
  · exact frozenFields_refl cm

theorem selectPhase_frozen (r : Nat) (cm : CorpusManager) :
    FrozenFields (selectPhase r cm).1 cm := by
  unfold selectPhase Template.init
  split
  · split <;> exact ⟨rfl, rfl, rfl, rfl, rfl, rfl⟩
  · split
    · exact frozenFields_refl cm
    · split
      · exact frozenFields_refl cm
      · exact ⟨rfl, rfl, rfl, rfl, rfl, rfl⟩

theorem foldl_addTF_test_files (fl : List TestFile) (tc : TestCase) :
    (fl.foldl addTF tc).test_files = tc.test_files ++ fl := by
  induction fl generalizing tc with
  | nil => simp
  | cons f fl ih => simp [ih, addTF]

theorem foldl_addTF_landing (fl : List TestFile) (tc : TestCase) :
    (fl.foldl addTF tc).landing_page = tc.landing_page := by
  induction fl generalizing tc with
  | nil => rfl
  | cons f fl ih => simp [ih, addTF]

theorem foldl_addTF_optional (fl : List TestFile) (tc : TestCase) :
    (fl.foldl addTF tc).optional_files =
      tc.optional_files ++ (fl.filter (fun f => !f.required)).map TestFile.file_name := by
  induction fl generalizing tc with
  | nil => simp
  | cons f fl ih =>
    by_cases hreq : f.required = true <;>
      simp [ih, addTF, List.filter_cons, hreq]

theorem selectPhase_fresh_templates (r : Nat) (cm : CorpusManager)
    (h : cm.is_replay = false) : (selectPhase r cm).1.templates = cm.templates := by
  unfold selectPhase Template.init
  split
  · next hrep => simp [h] at hrep
  · split
    · rfl
    · split <;> rfl

theorem rotation_boundary_rescan (fs : FS) (cm : CorpusManager)
    (hmode : cm.is_replay = false) (hP : 0 < cm.rotate_period)
    (hmul : cm.generated % cm.rotate_period = 0)
    (hs : scanList fs cm.corpus_path none ≠ []) :
    rotationPhase fs cm =
      ({ cm with
          templates := scanList fs cm.corpus_path none
          active_template :=
            if 1 < (scanList fs cm.corpus_path none).length then none
            else cm.active_template }, none) := by
  have hsE : (scanList fs cm.corpus_path none).isEmpty = false := by
    cases h : scanList fs cm.corpus_path none with
    | nil => exact absurd h hs
    | cons a l => rfl
  unfold rotationPhase scan_for_templates
  simp only [hP, hmul, and_self, if_true, hsE, Bool.false_eq_true, hmode, if_false]
  split <;> simp_all

/-- Claim C2: in fresh-fuzzing mode with rotation period `P > 0`, `generate`
rescans the pool exactly when the counter is a multiple of `P` (including the
first call, counter `0`), the rescan clears the active template exactly when
the rescanned pool has more than one candidate (a single-candidate pool never
clears it), and a call off the rotation boundary leaves the pool untouched. -/
theorem claim_C2 (fs : FS) (cm : CorpusManager)
    (hmode : cm.is_replay = false) (hP : 0 < cm.rotate_period) :
    (cm.generated % cm.rotate_period = 0 → scanList fs cm.corpus_path none ≠ [] →
       rotationPhase fs cm =
         ({ cm with
             templates := scanList fs cm.corpus_path none
             active_template :=
               if 1 < (scanList fs cm.corpus_path none).length then none
               else cm.active_template }, none)) ∧
    (cm.generated % cm.rotate_period ≠ 0 → rotationPhase fs cm = (cm, none)) ∧
    (∀ (hook : Hook) (r : Nat) (mime : Option String),
       cm.generated % cm.rotate_period ≠ 0 →
       (generate fs hook r mime cm).1.templates = cm.templates) := by
  have hskip : cm.generated % cm.rotate_period ≠ 0 → rotationPhase fs cm = (cm, none) := by
    intro hmul
    unfold rotationPhase
    simp [hmul]
  refine ⟨?_, hskip, ?_⟩
  · intro hmul hs
    exact rotation_boundary_rescan fs cm hmode hP hmul hs
  · intro hook r mime hmul
    have h1 := hskip hmul
    rcases hsel : selectPhase r cm with ⟨cm2, oe2⟩
    have htpl : cm2.templates = cm.templates := by
      have := selectPhase_fresh_templates r cm hmode
      rwa [hsel] at this
    cases oe2 with
    | some e => simp [generate, h1, hsel, htpl]
    | none =>
      cases hhook : hook (buildShell cm2).1 (buildShell cm2).2 mime with
      | error e => simp [generate, h1, hsel, hhook, htpl]
      | ok added => simp [generate, h1, hsel, hhook, htpl]

/-- Claim C2 witness: a concrete off-boundary call performs no rescan. -/
theorem claim_C2_witness : rotationPhase fsA cmRot = (cmRot, none) :=
  (claim_C2 fsA cmRot (by decide) (by decide)).2.1 (by decide)

/-- Claim C4: the generation counter is incremented exactly once per
successful `generate()` call; when the call raises (in the rotation scan, the
selection, or the hook), the counter is unchanged and the error surfacing to
the caller is exactly the error of the failing phase, unwrapped. -/
theorem claim_C4 (fs : FS) (hook : Hook) (r : Nat) (mime : Option String)
    (cm : CorpusManager) :
    (∀ t, (generate fs hook r mime cm).2 = Except.ok t →
       (generate fs hook r mime cm).1.generated = cm.generated + 1) ∧
    (∀ e, (generate fs hook r mime cm).2 = Except.error e →
       (generate fs hook r mime cm).1.generated = cm.generated ∧
       ((rotationPhase fs cm).2 = some e ∨
        (selectPhase r (rotationPhase fs cm).1).2 = some e ∨
        hook (buildShell (selectPhase r (rotationPhase fs cm).1).1).1
             (buildShell (selectPhase r (rotationPhase fs cm).1).1).2 mime =
          Except.error e)) := by
  rcases hrot : rotationPhase fs cm with ⟨cm1, oe1⟩
  have hf1 : FrozenFields cm1 cm := by
    have := rotationPhase_frozen fs cm
    rwa [hrot] at this
  cases oe1 with
  | some e0 =>
    have hg : generate fs hook r mime cm = (cm1, Except.error e0) := by
      simp [generate, hrot]
    constructor
    · intro t ht
      rw [hg] at ht
      simp at ht
    · intro e he
      rw [hg] at he
      simp only [Except.error.injEq] at he
      subst he
      rw [hg]
      exact ⟨hf1.2.1, Or.inl rfl⟩
  | none =>
    rcases hsel : selectPhase r cm1 with ⟨cm2, oe2⟩
    have hf2 : FrozenFields cm2 cm1 := by
      have := selectPhase_frozen r cm1
      rwa [hsel] at this
    have hf : FrozenFields cm2 cm := frozenFields_trans hf2 hf1
    cases oe2 with
    | some e0 =>
      have hg : generate fs hook r mime cm = (cm2, Except.error e0) := by
        simp [generate, hrot, hsel]
      constructor
      · intro t ht
        rw [hg] at ht
        simp at ht
      · intro e he
        rw [hg] at he
        simp only [Except.error.injEq] at he
        subst he
        rw [hg]
        exact ⟨hf.2.1, Or.inr (Or.inl rfl)⟩
    | none =>
      cases hhook : hook (buildShell cm2).1 (buildShell cm2).2 mime with
      | error e0 =>
        have hg : generate fs hook r mime cm = (cm2, Except.error e0) := by
          simp [generate, hrot, hsel, hhook]
        constructor
        · intro t ht
          rw [hg] at ht
          simp at ht
        · intro e he
          rw [hg] at he
          simp only [Except.error.injEq] at he
          subst he
          rw [hg]
          exact ⟨hf.2.1, Or.inr (Or.inr rfl)⟩
      | ok added =>
        have hg : generate fs hook r mime cm =
            ({ cm2 with generated := cm2.generated + 1 },
              Except.ok (added.foldl addTF (buildShell cm2).1)) := by
          simp [generate, hrot, hsel, hhook]
        constructor
        · intro t ht
          rw [hg]
          simp [hf.2.1]
        · intro e he
          rw [hg] at he
          simp at he

/-- Claim C4 witness: a failing call (exhausted replay pool) leaves the
counter unchanged. -/
theorem claim_C4_witness :
    (generate fsA plainHook 0 none cmNoPool).2 = Except.error PyError.indexError ∧
    (generate fsA plainHook 0 none cmNoPool).1.generated = 5 :=
  ⟨rfl, ((claim_C4 fsA plainHook 0 none cmNoPool).2 PyError.indexError rfl).1⟩

/-- Claim C9: constructing with the replay flag forces the rotation period to
`0` whatever `rotate` argument was passed; a zero rotation period makes the
rotation phase of `generate` a no-op (no rescan, no clearing); and `generate`
never changes the rotation period, so this persists across all later calls. -/
theorem claim_C9 (fs fs2 : FS) (path : String) (accepted : Option (List String))
    (rotate : Nat) (key : Option String) (hook : Hook) (r : Nat)
    (mime : Option String) :
    (CorpusManager.init fs path accepted true rotate key).1.rotate_period = 0 ∧
    (∀ cm : CorpusManager, cm.rotate_period = 0 → rotationPhase fs2 cm = (cm, none)) ∧
    (∀ cm : CorpusManager,
       (generate fs2 hook r mime cm).1.rotate_period = cm.rotate_period) := by
  refine ⟨?_, ?_, ?_⟩
  · have h := scan_frozen fs
      { active_template := none
        corpus_path := path
        generated := 0
        is_replay := true
        rotate_period := 0
        templates := []
        use_transition := true
        key := key } accepted
    exact h.2.2.2.1
  · intro cm h0
    unfold rotationPhase
    rw [h0]
    simp
  · intro cm
    rcases hrot : rotationPhase fs2 cm with ⟨cm1, oe1⟩
    have hf1 : FrozenFields cm1 cm := by
      have := rotationPhase_frozen fs2 cm
      rwa [hrot] at this
    cases oe1 with
    | some e => simp [generate, hrot, hf1.2.2.2.1]
    | none =>
      rcases hsel : selectPhase r cm1 with ⟨cm2, oe2⟩
      have hf2 : FrozenFields cm2 cm1 := by
        have := selectPhase_frozen r cm1
        rwa [hsel] at this
      have hf := frozenFields_trans hf2 hf1
      cases oe2 with
      | some e => simp [generate, hrot, hsel, hf.2.2.2.1]
      | none =>
        cases hhook : hook (buildShell cm2).1 (buildShell cm2).2 mime with
        | error e => simp [generate, hrot, hsel, hhook, hf.2.2.2.1]
        | ok added => simp [generate, hrot, hsel, hhook, hf.2.2.2.1]

/-- Claim C9 witness: with a zero rotation period the rotation phase of a
concrete call is a no-op. -/
theorem claim_C9_witness : rotationPhase fsA cmPlain = (cmPlain, none) :=
  (claim_C9 fsA fsA "/c" none 3 none plainHook 0 none).2.1 cmPlain (by decide)

/-- Claim C10: the rescan run from `generate` at a rotation boundary passes no
accepted-extension set, so the rescanned pool is the unfiltered scan — any
file passing the hidden/denylist/non-empty filters enters it, whatever
extension filter the pool was constructed with. -/
theorem claim_C10 (fs : FS) (cm : CorpusManager)
    (hP : 0 < cm.rotate_period) (hmul : cm.generated % cm.rotate_period = 0)
    (hmode : cm.is_replay = false)
    (hs : scanList fs cm.corpus_path none ≠ []) :
    (rotationPhase fs cm).1.templates = scanList fs cm.corpus_path none ∧
    (∀ d f, (d, f) ∈ fs.entries → fs.isDir = true → startsWithDot f = false →
       ignored_list.contains (pyLower f) = false → 0 < fs.getsize (joinPath d f) →
       joinPath d f ∈ scanList fs cm.corpus_path none) := by
  constructor
  · rw [rotation_boundary_rescan fs cm hmode hP hmul hs]
  · intro d f hmem hdir hdot hign hsize
    unfold scanList
    rw [hdir]
    simp only [if_true]
    refine List.mem_filterMap.mpr ⟨(d, f), hmem, ?_⟩
    simp [hdot, hign, hsize, acceptedTruthy]
    simpa using hign

/-- Claim C10 witness: a pool built with an `html` filter excludes a `.txt`
file at construction, and the first rotation rescan brings it in. -/
theorem claim_C10_witness :
    (CorpusManager.init fsB "/c" (some ["html"]) false 1 none).1.templates = ["/c/a.html"] ∧
    (rotationPhase fsB
        (CorpusManager.init fsB "/c" (some ["html"]) false 1 none).1).1.templates =
      ["/c/a.html", "/c/b.txt"] := by
  constructor
  · decide
  · have h := claim_C10 fsB (CorpusManager.init fsB "/c" (some ["html"]) false 1 none).1
      (by decide) (by decide) (by decide) (by decide)
    rw [h.1]
    decide

/-- Claim C5 counterexample: the claim says an empty path reference fails at
construction, but `Template.__init__` only checks `file_name is None`, so the
empty string is accepted. -/
theorem claim_C5_cex :
    Template.init (some "") =
      Except.ok { file_name := "", extension := none, dataF := none, dataHashF := none } := by
  rfl

/-- Claim C5 (amended): constructing a `ContentRef` with a null path reference
fails with `NotFoundError` (`IOError`) immediately at construction, before any
file access; constructing with any actual string — the empty string included —
succeeds at construction (failure, if any, is deferred to the first load). -/
theorem claim_C5 :
    Template.init none = Except.error (PyError.ioError "File does not exist: None") ∧
    (∀ s : String, Template.init (some s) = Except.ok (mkT s)) ∧
    Template.init (some "") =
      Except.ok { file_name := "", extension := none, dataF := none, dataHashF := none } := by
  exact ⟨rfl, fun _ => rfl, rfl⟩

/-- Claim C7: `to_data_url` is a pure function returning
`"data:" ++ mime ++ ";base64," ++ base64(data)`, with MIME type
`application/octet-stream` when the argument is omitted/null; sanity-checked
on the standard vector `"Man" ↦ "TWFu"`. -/
theorem claim_C7 (d : Bytes) (m : String) :
    to_data_url d (some m) = "data:" ++ m ++ ";base64," ++ standard_b64encode d ∧
    to_data_url d none = "data:application/octet-stream;base64," ++ standard_b64encode d ∧
    to_data_url [77, 97, 110] none = "data:application/octet-stream;base64,TWFu" := by
  refine ⟨rfl, rfl, ?_⟩
  decide

/-- Claim C8: `add_testfile` raises a `TypeError` exactly when its argument is
not a `TestFile`; on success it appends to the ordered sequence and records
the name in the optional list exactly when `required` is false; and
`get_optional` on a test case built from a fresh shell returns `None` when no
optional file was added, and the optional names (exactly the non-required
ones, in order) otherwise. -/
theorem claim_C8 (tc : TestCase) (tf : TestFile) (s : String) (fl : List TestFile)
    (lp : String) (key : Option String) (tmpl : Option Template) :
    add_testfile tc (PyObj.testFile tf) =
      Except.ok { tc with
        test_files := tc.test_files ++ [tf]
        optional_files :=
          if tf.required then tc.optional_files
          else tc.optional_files ++ [tf.file_name] } ∧
    add_testfile tc (PyObj.other s) =
      Except.error (PyError.typeError "add_testfile() only accepts TestFile objects") ∧
    get_optional (fl.foldl addTF (TestCase.init lp key tmpl)) =
      (if (fl.filter (fun f => !f.required)).isEmpty then none
       else some ((fl.filter (fun f => !f.required)).map TestFile.file_name)) := by
  refine ⟨rfl, rfl, ?_⟩
  unfold get_optional
  rw [foldl_addTF_optional]
  simp [TestCase.init]

theorem transitionName_ne_landingName (n : Nat) : transitionName n ≠ landingName n := by
  intro h
  have hl := congrArg String.length h
  rw [transitionName, landingName, String.length_append, String.length_append,
    String.length_append, String.length_append] at hl
  have h1 : "transition_".length = 11 := rfl
  have h2 : "test_page_".length = 10 := rfl
  omega

/-- Claim C3: with the transition page enabled, a successful `generate()` call
at counter `n` returns a `TestCase` whose landing page is
`test_page_%04d.html % n` and which contains a required redirect file
`transition_%04d.html % n` (a name distinct from the landing page) whose
script body navigates to `test_page_%04d.html % (n+1)`, the landing page name
of the next call (the counter after the call is `n+1`). -/
theorem claim_C3 (fs : FS) (hook : Hook) (r : Nat) (mime : Option String)
    (cm cm' : CorpusManager) (test : TestCase)
    (htr : cm.use_transition = true)
    (hok : generate fs hook r mime cm = (cm', Except.ok test)) :
    test.landing_page = landingName cm.generated ∧
    cm'.generated = cm.generated + 1 ∧
    ∃ tf ∈ test.test_files,
      tf.file_name = transitionName cm.generated ∧
      tf.required = true ∧
      tf.data = "<script>window.location=" ++ singleQuote ++
        landingName cm'.generated ++ singleQuote ++ ";</script>" ∧
      tf.file_name ≠ test.landing_page := by
  rcases hrot : rotationPhase fs cm with ⟨cm1, oe1⟩
  have hf1 : FrozenFields cm1 cm := by
    have := rotationPhase_frozen fs cm
    rwa [hrot] at this
  cases oe1 with
  | some e0 =>
    have hg : generate fs hook r mime cm = (cm1, Except.error e0) := by
      simp [generate, hrot]
    rw [hg] at hok
    simp at hok
  | none =>
    rcases hsel : selectPhase r cm1 with ⟨cm2, oe2⟩
    have hf2 : FrozenFields cm2 cm1 := by
      have := selectPhase_frozen r cm1
      rwa [hsel] at this
    have hf : FrozenFields cm2 cm := frozenFields_trans hf2 hf1
    have hgen : cm2.generated = cm.generated := hf.2.1
    have hut : cm2.use_transition = true := hf.2.2.2.2.1.trans htr
    cases oe2 with
    | some e0 =>
      have hg : generate fs hook r mime cm = (cm2, Except.error e0) := by
        simp [generate, hrot, hsel]
      rw [hg] at hok
      simp at hok
    | none =>
      cases hhook : hook (buildShell cm2).1 (buildShell cm2).2 mime with
      | error e0 =>
        have hg : generate fs hook r mime cm = (cm2, Except.error e0) := by
          simp [generate, hrot, hsel, hhook]
        rw [hg] at hok
        simp at hok
      | ok added =>
        have hg : generate fs hook r mime cm =
            ({ cm2 with generated := cm2.generated + 1 },
              Except.ok (added.foldl addTF (buildShell cm2).1)) := by
          simp [generate, hrot, hsel, hhook]
        rw [hg] at hok
        injection hok with hok1 hok2
        injection hok2 with hok2
        subst hok2
        subst hok1
        refine ⟨?_, ?_, ?_⟩
        · rw [foldl_addTF_landing]
          simp [buildShell, hut, addTF, TestCase.init, hgen]
        · simp [hgen]
        · refine ⟨⟨transitionName cm.generated,
            transitionScript (cm.generated + 1), true⟩, ?_, rfl, rfl, ?_, ?_⟩
          · rw [foldl_addTF_test_files]
            simp [buildShell, hut, addTF, TestCase.init, hgen]
          · simp [hgen, transitionScript]
          · rw [foldl_addTF_landing]
            simp [buildShell, hut, addTF, TestCase.init, hgen]
            exact transitionName_ne_landingName cm.generated

/-- Claim C3 witness: a concrete successful call at counter 0. -/
theorem claim_C3_witness :
    (exceptGetD (generate fsA plainHook 0 none cmPlain).2
        (TestCase.init "" none none)).landing_page = landingName cmPlain.generated ∧
    (generate fsA plainHook 0 none cmPlain).1.generated = cmPlain.generated + 1 := by
  have h := claim_C3 fsA plainHook 0 none cmPlain
    (generate fsA plainHook 0 none cmPlain).1
    (exceptGetD (generate fsA plainHook 0 none cmPlain).2 (TestCase.init "" none none))
    rfl rfl
  exact ⟨h.1, h.2.1⟩

theorem opStep_inv (disk : String → Option Bytes) (sha1 : Bytes → String)
    (p : Template × Nat) (op : TOp) (h : cacheInv sha1 p) :
    cacheInv sha1 (opStep disk sha1 p op) := by
  rcases h with ⟨h1, h2, h3⟩ | ⟨⟨d, hd, hh⟩, hn⟩
  · cases op with
    | getData =>
      cases hdisk : disk p.1.file_name with
      | none =>
        have hgd : get_data disk sha1 p.1 =
            Except.error (PyError.ioError ("File does not exist: " ++ p.1.file_name)) := by
          unfold get_data load_and_hash_data
          rw [h1, hdisk]
        have hstep : opStep disk sha1 p TOp.getData = p := by
          unfold opStep
          rw [hgd]
        rw [hstep]
        exact Or.inl ⟨h1, h2, h3⟩
      | some d =>
        have hgd : get_data disk sha1 p.1 =
            Except.ok (d, { p.1 with dataF := some d, dataHashF := some (sha1 d) }) := by
          unfold get_data load_and_hash_data
          rw [h1, hdisk]
          rfl
        have hstep : opStep disk sha1 p TOp.getData =
            ({ p.1 with dataF := some d, dataHashF := some (sha1 d) }, p.2 + 1) := by
          unfold opStep
          rw [hgd]
          simp [h1]
        rw [hstep]
        exact Or.inr ⟨⟨d, rfl, rfl⟩, by omega⟩
    | getHash =>
      cases hdisk : disk p.1.file_name with
      | none =>
        have hgh : get_hash disk sha1 p.1 =
            Except.error (PyError.ioError ("File does not exist: " ++ p.1.file_name)) := by
          unfold get_hash load_and_hash_data
          rw [h2, hdisk]
        have hstep : opStep disk sha1 p TOp.getHash = p := by
          unfold opStep
          rw [hgh]
        rw [hstep]
        exact Or.inl ⟨h1, h2, h3⟩
      | some d =>
        have hgh : get_hash disk sha1 p.1 =
            Except.ok (sha1 d, { p.1 with dataF := some d, dataHashF := some (sha1 d) }) := by
          unfold get_hash load_and_hash_data
          rw [h2, hdisk]
          rfl
        have hstep : opStep disk sha1 p TOp.getHash =
            ({ p.1 with dataF := some d, dataHashF := some (sha1 d) }, p.2 + 1) := by
          unfold opStep
          rw [hgh]
          simp [h2]
        rw [hstep]
        exact Or.inr ⟨⟨d, rfl, rfl⟩, by omega⟩
  · cases op with
    | getData =>
      have hgd : get_data disk sha1 p.1 = Except.ok (d, p.1) := by
        unfold get_data
        rw [hd]
      have hstep : opStep disk sha1 p TOp.getData = (p.1, p.2) := by
        unfold opStep
        rw [hgd]
        simp [hd]
      rw [hstep]
      exact Or.inr ⟨⟨d, hd, hh⟩, hn⟩
    | getHash =>
      have hgh : get_hash disk sha1 p.1 = Except.ok (sha1 d, p.1) := by
        unfold get_hash
        rw [hh]
      have hstep : opStep disk sha1 p TOp.getHash = (p.1, p.2) := by
        unfold opStep
        rw [hgh]
        simp [hh]
      rw [hstep]
      exact Or.inr ⟨⟨d, hd, hh⟩, hn⟩

theorem runOps_inv (disk : String → Option Bytes) (sha1 : Bytes → String)
    (ops : List TOp) (p : Template × Nat) (h : cacheInv sha1 p) :
    cacheInv sha1 (runOps disk sha1 ops p) := by
  induction ops generalizing p with
  | nil => exact h
  | cons op ops ih => exact ih _ (opStep_inv disk sha1 p op h)

/-- Claim C6: no disk read happens at `ContentRef` construction (the caches
start empty and construction never consults the disk); across any sequence of
`content()`/`contentHash()` calls the file is read at most once per instance;
and `contentHash()` is deterministic — two instances over files with the same
bytes return the same digest, and a repeated call returns the same cached
digest without changing the object. -/
theorem claim_C6 (disk : String → Option Bytes) (sha1 : Bytes → String)
    (name name2 : String) (d : Bytes) (t0 t2 : Template)
    (h0 : Template.init (some name) = Except.ok t0)
    (h2 : Template.init (some name2) = Except.ok t2) :
    (t0.dataF = none ∧ t0.dataHashF = none) ∧
    (∀ ops : List TOp, (runOps disk sha1 ops (t0, 0)).2 ≤ 1) ∧
    (disk name = some d → disk name2 = some d →
      ∃ t0' t2',
        get_hash disk sha1 t0 = Except.ok (sha1 d, t0') ∧
        get_hash disk sha1 t2 = Except.ok (sha1 d, t2') ∧
        get_hash disk sha1 t0' = Except.ok (sha1 d, t0')) := by
  have ht0 : t0 = mkT name := by
    injection h0 with h
    exact h.symm
  have ht2 : t2 = mkT name2 := by
    injection h2 with h
    exact h.symm
  subst ht0
  subst ht2
  refine ⟨⟨rfl, rfl⟩, ?_, ?_⟩
  · intro ops
    have h := runOps_inv disk sha1 ops (mkT name, 0) (Or.inl ⟨rfl, rfl, rfl⟩)
    rcases h with ⟨_, _, h3⟩ | ⟨_, hn⟩
    · omega
    · exact hn
  · intro hd1 hd2
    refine ⟨{ mkT name with dataF := some d, dataHashF := some (sha1 d) },
      { mkT name2 with dataF := some d, dataHashF := some (sha1 d) }, ?_, ?_, ?_⟩
    · simp [get_hash, load_and_hash_data, mkT, hd1]
    · simp [get_hash, load_and_hash_data, mkT, hd2]
    · simp [get_hash]

/-- Claim C6 witness: a concrete instance reads at most once over a
hash-data-hash call sequence. -/
theorem claim_C6_witness :
    (runOps diskA shaA [TOp.getHash, TOp.getData, TOp.getHash] (mkT "/c/a.html", 0)).2 ≤ 1 :=
  (claim_C6 diskA shaA "/c/a.html" "/c/a.html" [104, 105] (mkT "/c/a.html")
    (mkT "/c/a.html") rfl rfl).2.1 [TOp.getHash, TOp.getData, TOp.getHash]

theorem sortAsc_length (l : List String) : (sortAsc l).length = l.length :=
  (List.perm_insertionSort _ l).length_eq

theorem sortDesc_eq_reverse_sortAsc (l : List String) :
    sortDesc l = (sortAsc l).reverse := by
  apply List.eq_of_perm_of_sorted (r := fun a b : String => b ≤ a)
  · exact ((List.perm_insertionSort _ l).trans
      (List.perm_insertionSort (fun a b : String => a ≤ b) l).symm).trans
      (List.reverse_perm (sortAsc l)).symm
  · exact List.sorted_insertionSort _ l
  · exact List.pairwise_reverse.mpr (List.sorted_insertionSort _ l)

theorem dropLast_reverse_eq {α : Type} (l : List α) :
    l.reverse.dropLast = l.tail.reverse := by
  cases l with
  | nil => rfl
  | cons a t => simp

theorem replay_generate_step (fs : FS) (r : Nat) (mime : Option String)
    (cm : CorpusManager) (a : String) (t : List String)
    (hrep : cm.is_replay = true) (hrot : cm.rotate_period = 0)
    (htmp : cm.templates = (a :: t).reverse) :
    generate fs plainHook r mime cm =
      ({ cm with
          templates := t.reverse
          active_template := some (mkT a)
          generated := cm.generated + 1 },
        Except.ok (buildShell { cm with
          templates := t.reverse
          active_template := some (mkT a) }).1) := by
  have h1 : rotationPhase fs cm = (cm, none) := by
    unfold rotationPhase
    rw [hrot]
    simp
  have hlast : cm.templates.getLast? = some a := by
    rw [htmp, List.getLast?_reverse]
    rfl
  have hdrop : cm.templates.dropLast = t.reverse := by
    rw [htmp, dropLast_reverse_eq]
    rfl
  have h2 : selectPhase r cm =
      ({ cm with templates := t.reverse, active_template := some (mkT a) }, none) := by
    unfold selectPhase Template.init
    simp [hrep, hlast, hdrop]
  simp [generate, h1, h2, plainHook]

theorem replay_genIter (fs : FS) (r : Nat) (mime : Option String) :
    ∀ (j : Nat) (l : List String) (cm : CorpusManager),
      cm.is_replay = true → cm.rotate_period = 0 → cm.templates = l.reverse →
      j ≤ l.length →
      genIter fs plainHook r mime j cm =
        ({ cm with
            templates := (l.drop j).reverse
            active_template :=
              if j = 0 then cm.active_template else some (mkT (l.getD (j - 1) ""))
            generated := cm.generated + j }, none) := by
  intro j
  induction j with
  | zero =>
    intro l cm h1 h2 h3 h4
    simp [genIter, ← h3]
  | succ j ih =>
    intro l cm h1 h2 h3 h4
    cases l with
    | nil => simp at h4
    | cons a t =>
      have hstep := replay_generate_step fs r mime cm a t h1 h2 h3
      have hrec := ih t
        { cm with
            templates := t.reverse
            active_template := some (mkT a)
            generated := cm.generated + 1 }
        h1 h2 rfl (by simpa using h4)
      rw [genIter, hstep]
      dsimp only
      rw [hrec]
      cases j with
      | zero => simp
      | succ jj =>
        have hgen : cm.generated + 1 + (jj + 1) = cm.generated + (jj + 1 + 1) := by omega
        simp [hgen]

theorem replay_genIter_exhaust (fs : FS) (r : Nat) (mime : Option String) :
    ∀ (l : List String) (cm : CorpusManager),
      cm.is_replay = true → cm.rotate_period = 0 → cm.templates = l.reverse →
      (genIter fs plainHook r mime (l.length + 1) cm).2 = some PyError.indexError := by
  intro l
  induction l with
  | nil =>
    intro cm h1 h2 h3
    have h1' : rotationPhase fs cm = (cm, none) := by
      unfold rotationPhase
      rw [h2]
      simp
    have h2' : selectPhase r cm = (cm, some PyError.indexError) := by
      unfold selectPhase
      have hlast : cm.templates.getLast? = none := by rw [h3]; rfl
      simp [h1, hlast]
    simp [genIter, generate, h1', h2']
  | cons a t ih =>
    intro cm h1 h2 h3
    have hstep := replay_generate_step fs r mime cm a t h1 h2 h3
    show (genIter fs plainHook r mime (t.length + 1 + 1) cm).2 = some PyError.indexError
    rw [genIter, hstep]
    exact ih _ h1 h2 rfl

/-- The manager state right after a replay-mode construction whose scan found
the candidate list `s` (fields as assigned by `__init__`, pool sorted
descending). -/
def replayInit (path : String) (s : List String) : CorpusManager :=
  { active_template := none
    corpus_path := path
    generated := 0
    is_replay := true
    rotate_period := 0
    templates := sortDesc s
    use_transition := true
    key := none }

/-- Claim C1: in replay mode with `N` scanned templates, the first `N`
`generate()` calls succeed, the active template of the `k`-th call (1-indexed)
is the `k`-th element of the template paths in ascending lexicographic order,
and the `(N+1)`-th call raises the empty-pool error (`IndexError` from
`pop()`, the spec's `ExhaustedReplayError`). -/
theorem claim_C1 (fs : FS) (path : String) (accepted : Option (List String))
    (rotate r k : Nat) (mime : Option String)
    (hs : scanList fs path accepted ≠ [])
    (hk : k < (scanList fs path accepted).length) :
    (CorpusManager.init fs path accepted true rotate none).2 = none ∧
    (CorpusManager.init fs path accepted true rotate none).1 =
      replayInit path (scanList fs path accepted) ∧
    ((genIter fs plainHook r mime (k + 1)
        (replayInit path (scanList fs path accepted))).2 = none ∧
      Option.map Template.file_name
        (genIter fs plainHook r mime (k + 1)
          (replayInit path (scanList fs path accepted))).1.active_template =
        some ((sortAsc (scanList fs path accepted)).getD k "")) ∧
    (genIter fs plainHook r mime ((scanList fs path accepted).length + 1)
        (replayInit path (scanList fs path accepted))).2 =
      some PyError.indexError := by
  have hsE : (scanList fs path accepted).isEmpty = false := by
    cases h : scanList fs path accepted with
    | nil => exact absurd h hs
    | cons a l => rfl
  have hinit : CorpusManager.init fs path accepted true rotate none =
      (replayInit path (scanList fs path accepted), none) := by
    unfold CorpusManager.init scan_for_templates replayInit
    simp [hsE]
  have htmp : (replayInit path (scanList fs path accepted)).templates =
      (sortAsc (scanList fs path accepted)).reverse :=
    sortDesc_eq_reverse_sortAsc (scanList fs path accepted)
  have hk' : k + 1 ≤ (sortAsc (scanList fs path accepted)).length := by
    rw [sortAsc_length]
    omega
  have hgen := replay_genIter fs r mime (k + 1) (sortAsc (scanList fs path accepted))
    (replayInit path (scanList fs path accepted)) rfl rfl htmp hk'
  have hfail := replay_genIter_exhaust fs r mime (sortAsc (scanList fs path accepted))
    (replayInit path (scanList fs path accepted)) rfl rfl htmp
  refine ⟨by rw [hinit], by rw [hinit], ⟨?_, ?_⟩, ?_⟩
  · rw [hgen]
  · rw [hgen]
    simp [mkT]
  · rw [← sortAsc_length (scanList fs path accepted)]
    exact hfail

/-- Claim C1 witness: two scanned templates are replayed in ascending order;
here the second call activates the larger path. -/
theorem claim_C1_witness :
    (genIter fsA plainHook 0 none 2 (replayInit "/c" (scanList fsA "/c" none))).2 = none ∧
    Option.map Template.file_name
      (genIter fsA plainHook 0 none 2
        (replayInit "/c" (scanList fsA "/c" none))).1.active_template =
      some ((sortAsc (scanList fsA "/c" none)).getD 1 "") :=
  (claim_C1 fsA "/c" none 10 0 1 none (by decide) (by decide)).2.2.1

end Corpman
